import Mathlib

/-!
Verification of the enterprise API v1 views layer
(`enterprise/api/v1/views.py`): a shallow embedding of the view handlers,
their effect traces (external catalog-API calls, error logs, outcome), and
the viewset policy configuration, with proofs of the behavioural properties
of the module.
-/

/-- Query parameters of a request (the `request.GET` mapping), as ordered
key/value pairs. -/
abbrev QueryParams := List (String × String)

/-- An HTTP request as the views observe it: the method, the full path
(`request.get_full_path()`, including the query string), the query
parameters, and the id of the requesting user. -/
structure Request where
  method : String
  get_full_path : String
  GET : QueryParams
  userId : Nat
deriving Repr, DecidableEq

/-- An enterprise customer record, with the fields the views read: the
uuid, the display name, the nullable catalog id, the active flag and the
data-sharing consent settings. -/
structure EnterpriseCustomer where
  uuid : Nat
  name : String
  catalog : Option Nat
  active : Bool
  enable_data_sharing_consent : Bool
  enforce_data_sharing_consent : Bool
deriving Repr, DecidableEq

/-- Python truthiness of the nullable integer `catalog` field: both `None`
and `0` are falsy, so `not enterprise_customer.catalog` is true exactly
when this returns `false`. -/
def catalogTruthy : Option Nat → Bool
  | none => false
  | some n => n != 0

/-- An opaque course payload entry returned by the external catalog API;
the views never inspect individual entries. -/
abbrev CourseEntry := String

/-- A structured payload from the external catalog API. A falsy response
(`None`, or an empty container) is modelled as `none`; `some p` is a
truthy payload. The views branch only on truthiness, never on content. -/
abbrev ApiPayload := Option (List CourseEntry)

/-- The external catalog API client (`CourseCatalogApiClient`), modelled
as the three functions the views call. Each returns `none` to mean a
falsy response (no data or upstream failure). -/
structure CourseCatalogApiClient where
  get_paginated_catalogs : QueryParams → ApiPayload
  get_catalog : Nat → ApiPayload
  get_paginated_catalog_courses : Nat → QueryParams → ApiPayload

/-- One call made to the external catalog API client, recorded in order. -/
inductive ApiCall
  | get_paginated_catalogs (params : QueryParams)
  | get_catalog (pk : Nat)
  | get_paginated_catalog_courses (catalogId : Nat) (params : QueryParams)
deriving Repr, DecidableEq

/-- The serialized response data of a successful view run, recorded
symbolically: which serializer produced it, from which payload, and (for
course listings) the enterprise context attached by
`update_enterprise_courses` (the customer and the catalog id). -/
inductive SerializedBody
  | catalogCourses (courses : List CourseEntry)
      (enterpriseContext : EnterpriseCustomer × Nat)
  | catalogList (catalogs : List CourseEntry)
  | catalogDetail (catalog : List CourseEntry)
deriving Repr, DecidableEq

/-- The outward outcome of a view run: a raised `NotFound` with its detail
message, a plain `Response`, or a `get_paginated_response` wrapper around
serialized data for the given request. -/
inductive Outcome
  | notFound (detail : String)
  | response (body : SerializedBody)
  | paginatedResponse (body : SerializedBody) (req : Request)
deriving Repr, DecidableEq

/-- The observable effects of one view invocation: the external API calls
made (in order), the error-level log messages emitted (in order), and the
outcome. -/
structure ViewRun where
  apiCalls : List ApiCall
  errorLogs : List String
  outcome : Outcome
deriving Repr, DecidableEq

/-- The substring relation on strings: `needle` occurs contiguously in
`hay`. -/
def ContainsSub (needle hay : String) : Prop :=
  ∃ s t, hay = s ++ needle ++ t

theorem containsSub_middle (s n t : String) : ContainsSub n (s ++ n ++ t) :=
  ⟨s, t, rfl⟩

theorem containsSub_assoc_mid (a n b p c : String) :
    ContainsSub n (a ++ n ++ b ++ p ++ c) := by
  refine ⟨a, b ++ p ++ c, ?_⟩
  simp [String.append_assoc]

/-- Any character of the needle occurs in the haystack; used to refute
substring claims on concrete strings. -/
theorem containsSub_mem {n h : String} (hc : ContainsSub n h) {c : Char}
    (hm : c ∈ n.data) : c ∈ h.data := by
  obtain ⟨s, t, rfl⟩ := hc
  simp only [String.data_append, List.mem_append]
  exact Or.inl (Or.inr hm)

/-- The `courses` detail action of `EnterpriseCustomerViewSet`
(views.py lines 73 to 117). Checks that a catalog is associated with the
enterprise (logging and raising `NotFound` otherwise, before any external
call), then calls `get_paginated_catalog_courses` with the catalog id and
the incoming query parameters; a falsy result is logged and raised as
`NotFound`, a truthy result is serialized, given enterprise context via
`update_enterprise_courses(enterprise_customer, enterprise_customer.catalog)`,
and returned through `get_paginated_response`. -/
def EnterpriseCustomerViewSet.courses (api : CourseCatalogApiClient)
    (enterprise_customer : EnterpriseCustomer) (request : Request) : ViewRun :=
  match enterprise_customer.catalog with
  | none =>
    let error_message :=
      "No catalog is associated with Enterprise " ++ enterprise_customer.name ++
        " from endpoint \x27" ++ request.get_full_path ++ "\x27."
    { apiCalls := [], errorLogs := [error_message],
      outcome := Outcome.notFound error_message }
  | some c =>
    if c = 0 then
      let error_message :=
        "No catalog is associated with Enterprise " ++ enterprise_customer.name ++
          " from endpoint \x27" ++ request.get_full_path ++ "\x27."
      { apiCalls := [], errorLogs := [error_message],
        outcome := Outcome.notFound error_message }
    else
      let call := ApiCall.get_paginated_catalog_courses c request.GET
      match api.get_paginated_catalog_courses c request.GET with
      | none =>
        let error_message :=
          "Unable to fetch API response for catalog courses for Enterprise " ++
            enterprise_customer.name ++ " from endpoint \x27" ++
            request.get_full_path ++ "\x27."
        { apiCalls := [call], errorLogs := [error_message],
          outcome := Outcome.notFound error_message }
      | some courses =>
        { apiCalls := [call], errorLogs := [],
          outcome := Outcome.paginatedResponse
            (SerializedBody.catalogCourses courses (enterprise_customer, c))
            request }

/-- Claim C1: when the resolved customer has no associated catalog (the
catalog field is falsy), the courses action raises `NotFound` with an
error-level log message containing both the customer name and the request
full path, and makes no external catalog-API call. -/
theorem c1_courses_no_catalog (api : CourseCatalogApiClient)
    (ec : EnterpriseCustomer) (req : Request)
    (h : catalogTruthy ec.catalog = false) :
    ∃ msg,
      (EnterpriseCustomerViewSet.courses api ec req).outcome = Outcome.notFound msg ∧
      (EnterpriseCustomerViewSet.courses api ec req).errorLogs = [msg] ∧
      ContainsSub ec.name msg ∧
      ContainsSub req.get_full_path msg ∧
      (EnterpriseCustomerViewSet.courses api ec req).apiCalls = [] := by
  rcases hc : ec.catalog with _ | c
  · refine ⟨"No catalog is associated with Enterprise " ++ ec.name ++
        " from endpoint \x27" ++ req.get_full_path ++ "\x27.", ?_, ?_, ?_, ?_, ?_⟩
    · simp [EnterpriseCustomerViewSet.courses, hc]
    · simp [EnterpriseCustomerViewSet.courses, hc]
    · exact containsSub_assoc_mid
        "No catalog is associated with Enterprise " ec.name
        " from endpoint \x27" req.get_full_path "\x27."
    · exact containsSub_middle
        ("No catalog is associated with Enterprise " ++ ec.name ++ " from endpoint \x27")
        req.get_full_path "\x27."
    · simp [EnterpriseCustomerViewSet.courses, hc]
  · have hzero : c = 0 := by
      simp [catalogTruthy, hc] at h
      exact h
    subst hzero
    refine ⟨"No catalog is associated with Enterprise " ++ ec.name ++
        " from endpoint \x27" ++ req.get_full_path ++ "\x27.", ?_, ?_, ?_, ?_, ?_⟩
    · simp [EnterpriseCustomerViewSet.courses, hc]
    · simp [EnterpriseCustomerViewSet.courses, hc]
    · exact containsSub_assoc_mid
        "No catalog is associated with Enterprise " ec.name
        " from endpoint \x27" req.get_full_path "\x27."
    · exact containsSub_middle
        ("No catalog is associated with Enterprise " ++ ec.name ++ " from endpoint \x27")
        req.get_full_path "\x27."
    · simp [EnterpriseCustomerViewSet.courses, hc]

/-- A sample catalog API client whose every call returns a truthy payload;
used by witnesses. -/
def sampleApi : CourseCatalogApiClient where
  get_paginated_catalogs := fun _ => some ["catalogA", "catalogB"]
  get_catalog := fun _ => some ["catalogA"]
  get_paginated_catalog_courses := fun _ _ => some ["course-v1:edX+DemoX+T1"]

/-- A sample catalog API client whose every call returns a falsy payload;
used by witnesses and the counterexample. -/
def emptyApi : CourseCatalogApiClient where
  get_paginated_catalogs := fun _ => none
  get_catalog := fun _ => none
  get_paginated_catalog_courses := fun _ _ => none

/-- A sample request used by witnesses. -/
def sampleReq : Request where
  method := "GET"
  get_full_path := "/enterprise/api/v1/enterprise-customer/3/courses/?page=2"
  GET := [("page", "2")]
  userId := 7

/-- A sample enterprise customer with no catalog. -/
def ecNoCatalog : EnterpriseCustomer where
  uuid := 3
  name := "Acme"
  catalog := none
  active := true
  enable_data_sharing_consent := true
  enforce_data_sharing_consent := false

/-- Witness for C1 at a concrete customer with no catalog. -/
theorem c1_courses_no_catalog_witness :
    catalogTruthy ecNoCatalog.catalog = false ∧
    ∃ msg,
      (EnterpriseCustomerViewSet.courses sampleApi ecNoCatalog sampleReq).outcome =
        Outcome.notFound msg ∧
      (EnterpriseCustomerViewSet.courses sampleApi ecNoCatalog sampleReq).errorLogs = [msg] ∧
      ContainsSub ecNoCatalog.name msg ∧
      ContainsSub sampleReq.get_full_path msg ∧
      (EnterpriseCustomerViewSet.courses sampleApi ecNoCatalog sampleReq).apiCalls = [] :=
  ⟨rfl, c1_courses_no_catalog sampleApi ecNoCatalog sampleReq rfl⟩

/-- The `list` action of `EnterpriseCatalogViewSet` (views.py lines 260 to
279): calls `get_paginated_catalogs` with the incoming query parameters;
a falsy result logs a fixed message and raises `NotFound`, a truthy result
is serialized and returned through `get_paginated_response`. -/
def EnterpriseCatalogViewSet.list (api : CourseCatalogApiClient)
    (request : Request) : ViewRun :=
  let call := ApiCall.get_paginated_catalogs request.GET
  match api.get_paginated_catalogs request.GET with
  | none =>
    { apiCalls := [call],
      errorLogs := ["Unable to fetch API response from endpoint \"/catalogs/\"."],
      outcome := Outcome.notFound "The resource you are looking for does not exist." }
  | some catalogs =>
    { apiCalls := [call], errorLogs := [],
      outcome := Outcome.paginatedResponse (SerializedBody.catalogList catalogs) request }

/-- The `retrieve` action of `EnterpriseCatalogViewSet` (views.py lines
281 to 301): calls `get_catalog` with the requested pk; a falsy result
logs a message interpolating the pk into a fixed path pattern and raises
`NotFound`, a truthy result is serialized and returned as a plain
response. -/
def EnterpriseCatalogViewSet.retrieve (api : CourseCatalogApiClient)
    (request : Request) (pk : Nat) : ViewRun :=
  let call := ApiCall.get_catalog pk
  match api.get_catalog pk with
  | none =>
    { apiCalls := [call],
      errorLogs := ["Unable to fetch API response for given catalog from endpoint \x27/catalog/" ++
        toString pk ++ "/\x27."],
      outcome := Outcome.notFound "The resource you are looking for does not exist." }
  | some catalog =>
    { apiCalls := [call], errorLogs := [],
      outcome := Outcome.response (SerializedBody.catalogDetail catalog) }

/-- The `courses` detail action of `EnterpriseCatalogViewSet` (views.py
lines 303 to 330): calls `get_paginated_catalog_courses` with the
requested catalog pk and the incoming query parameters; a falsy result
logs the request full path and raises `NotFound`, a truthy result is
serialized, given enterprise context via
`update_enterprise_courses(enterprise_customer, pk)`, and returned
through `get_paginated_response`. -/
def EnterpriseCatalogViewSet.courses (api : CourseCatalogApiClient)
    (request : Request) (enterprise_customer : EnterpriseCustomer)
    (pk : Nat) : ViewRun :=
  let call := ApiCall.get_paginated_catalog_courses pk request.GET
  match api.get_paginated_catalog_courses pk request.GET with
  | none =>
    { apiCalls := [call],
      errorLogs := ["Unable to fetch API response for catalog courses from endpoint \x27" ++
        request.get_full_path ++ "\x27."],
      outcome := Outcome.notFound "The resource you are looking for does not exist." }
  | some courses =>
    { apiCalls := [call], errorLogs := [],
      outcome := Outcome.paginatedResponse
        (SerializedBody.catalogCourses courses (enterprise_customer, pk)) request }

/-- Claim C2: in every catalog-proxy operation (customer courses, catalog
list, catalog retrieve, catalog courses), a falsy payload from the
external catalog client makes the operation raise `NotFound`; none of
them returns a successful response in that case. -/
theorem c2_falsy_payload_not_found (api : CourseCatalogApiClient)
    (ec : EnterpriseCustomer) (req : Request) (pk c : Nat) :
    (ec.catalog = some c → c ≠ 0 →
      api.get_paginated_catalog_courses c req.GET = none →
      ∃ msg, (EnterpriseCustomerViewSet.courses api ec req).outcome =
        Outcome.notFound msg) ∧
    (api.get_paginated_catalogs req.GET = none →
      (EnterpriseCatalogViewSet.list api req).outcome =
        Outcome.notFound "The resource you are looking for does not exist.") ∧
    (api.get_catalog pk = none →
      (EnterpriseCatalogViewSet.retrieve api req pk).outcome =
        Outcome.notFound "The resource you are looking for does not exist.") ∧
    (api.get_paginated_catalog_courses pk req.GET = none →
      (EnterpriseCatalogViewSet.courses api req ec pk).outcome =
        Outcome.notFound "The resource you are looking for does not exist.") := by
  refine ⟨?_, ?_, ?_, ?_⟩
  · intro hc hz hapi
    refine ⟨"Unable to fetch API response for catalog courses for Enterprise " ++
      ec.name ++ " from endpoint \x27" ++ req.get_full_path ++ "\x27.", ?_⟩
    simp [EnterpriseCustomerViewSet.courses, hc, hz, hapi]
  · intro hapi
    simp [EnterpriseCatalogViewSet.list, hapi]
  · intro hapi
    simp [EnterpriseCatalogViewSet.retrieve, hapi]
  · intro hapi
    simp [EnterpriseCatalogViewSet.courses, hapi]

/-- A sample enterprise customer with catalog id 42. -/
def ecWithCatalog : EnterpriseCustomer where
  uuid := 4
  name := "Initech"
  catalog := some 42
  active := true
  enable_data_sharing_consent := true
  enforce_data_sharing_consent := true

/-- Witness for C2 at the all-falsy client and concrete inputs. -/
theorem c2_falsy_payload_not_found_witness :
    (∃ msg, (EnterpriseCustomerViewSet.courses emptyApi ecWithCatalog sampleReq).outcome =
        Outcome.notFound msg) ∧
    (EnterpriseCatalogViewSet.list emptyApi sampleReq).outcome =
      Outcome.notFound "The resource you are looking for does not exist." ∧
    (EnterpriseCatalogViewSet.retrieve emptyApi sampleReq 9).outcome =
      Outcome.notFound "The resource you are looking for does not exist." ∧
    (EnterpriseCatalogViewSet.courses emptyApi sampleReq ecWithCatalog 9).outcome =
      Outcome.notFound "The resource you are looking for does not exist." :=
  ⟨(c2_falsy_payload_not_found emptyApi ecWithCatalog sampleReq 9 42).1 rfl (by decide) rfl,
   (c2_falsy_payload_not_found emptyApi ecWithCatalog sampleReq 9 42).2.1 rfl,
   (c2_falsy_payload_not_found emptyApi ecWithCatalog sampleReq 9 42).2.2.1 rfl,
   (c2_falsy_payload_not_found emptyApi ecWithCatalog sampleReq 9 42).2.2.2 rfl⟩

/-- Claim C3: for a customer whose catalog field is truthy, the courses
action calls the external catalog-courses API exactly once, with that
catalog id and exactly the incoming query parameters; and a truthy result
is serialized with enterprise context attached for the customer and its
catalog, and returned through the pagination wrapper. -/
theorem c3_courses_with_catalog (api : CourseCatalogApiClient)
    (ec : EnterpriseCustomer) (req : Request) (c : Nat)
    (hc : ec.catalog = some c) (hz : c ≠ 0) :
    (EnterpriseCustomerViewSet.courses api ec req).apiCalls =
      [ApiCall.get_paginated_catalog_courses c req.GET] ∧
    ∀ courses, api.get_paginated_catalog_courses c req.GET = some courses →
      (EnterpriseCustomerViewSet.courses api ec req).outcome =
        Outcome.paginatedResponse
          (SerializedBody.catalogCourses courses (ec, c)) req := by
  constructor
  · rcases hapi : api.get_paginated_catalog_courses c req.GET with _ | courses <;>
      simp [EnterpriseCustomerViewSet.courses, hc, hz, hapi]
  · intro courses hapi
    simp [EnterpriseCustomerViewSet.courses, hc, hz, hapi]

/-- Witness for C3 at a concrete customer with catalog 42 and the
all-truthy client. -/
theorem c3_courses_with_catalog_witness :
    ecWithCatalog.catalog = some 42 ∧ (42 : Nat) ≠ 0 ∧
    ((EnterpriseCustomerViewSet.courses sampleApi ecWithCatalog sampleReq).apiCalls =
      [ApiCall.get_paginated_catalog_courses 42 sampleReq.GET] ∧
    ∀ courses, sampleApi.get_paginated_catalog_courses 42 sampleReq.GET = some courses →
      (EnterpriseCustomerViewSet.courses sampleApi ecWithCatalog sampleReq).outcome =
        Outcome.paginatedResponse
          (SerializedBody.catalogCourses courses (ecWithCatalog, 42)) sampleReq) :=
  ⟨rfl, by decide,
    c3_courses_with_catalog sampleApi ecWithCatalog sampleReq 42 rfl (by decide)⟩

/-- The serializer classes chosen by `get_serializer_class` in the
course-enrollment and customer-user viewsets. -/
inductive SerializerClass
  | EnterpriseCourseEnrollmentReadOnlySerializer
  | EnterpriseCourseEnrollmentWriteSerializer
  | EnterpriseCustomerUserReadOnlySerializer
  | EnterpriseCustomerUserWriteSerializer
deriving Repr, DecidableEq

/-- `EnterpriseCourseEnrollmentViewSet.get_serializer_class` (views.py
lines 132 to 138): the read-only serializer when the request method is in
`("GET",)`, the write serializer otherwise. -/
def EnterpriseCourseEnrollmentViewSet.get_serializer_class
    (method : String) : SerializerClass :=
  if method ∈ ["GET"] then
    SerializerClass.EnterpriseCourseEnrollmentReadOnlySerializer
  else
    SerializerClass.EnterpriseCourseEnrollmentWriteSerializer

/-- `EnterpriseCustomerUserViewSet.get_serializer_class` (views.py lines
180 to 186): the flat read-only serializer when the request method is in
`("GET",)`, the write serializer otherwise. -/
def EnterpriseCustomerUserViewSet.get_serializer_class
    (method : String) : SerializerClass :=
  if method ∈ ["GET"] then
    SerializerClass.EnterpriseCustomerUserReadOnlySerializer
  else
    SerializerClass.EnterpriseCustomerUserWriteSerializer

/-- Claim C4: in both the course-enrollment and customer-user viewsets,
`get_serializer_class` yields the read-only serializer exactly when the
method is GET, and the write serializer exactly when it is not. -/
theorem c4_serializer_by_method (m : String) :
    (EnterpriseCourseEnrollmentViewSet.get_serializer_class m =
        SerializerClass.EnterpriseCourseEnrollmentReadOnlySerializer ↔ m = "GET") ∧
    (EnterpriseCourseEnrollmentViewSet.get_serializer_class m =
        SerializerClass.EnterpriseCourseEnrollmentWriteSerializer ↔ m ≠ "GET") ∧
    (EnterpriseCustomerUserViewSet.get_serializer_class m =
        SerializerClass.EnterpriseCustomerUserReadOnlySerializer ↔ m = "GET") ∧
    (EnterpriseCustomerUserViewSet.get_serializer_class m =
        SerializerClass.EnterpriseCustomerUserWriteSerializer ↔ m ≠ "GET") := by
  by_cases h : m = "GET" <;>
    simp [EnterpriseCourseEnrollmentViewSet.get_serializer_class,
      EnterpriseCustomerUserViewSet.get_serializer_class, h]

/-- Witness for C4 at the concrete methods POST and GET. -/
theorem c4_serializer_by_method_witness :
    (EnterpriseCourseEnrollmentViewSet.get_serializer_class "POST" =
        SerializerClass.EnterpriseCourseEnrollmentReadOnlySerializer ↔ "POST" = "GET") ∧
    (EnterpriseCourseEnrollmentViewSet.get_serializer_class "POST" =
        SerializerClass.EnterpriseCourseEnrollmentWriteSerializer ↔ "POST" ≠ "GET") ∧
    (EnterpriseCustomerUserViewSet.get_serializer_class "POST" =
        SerializerClass.EnterpriseCustomerUserReadOnlySerializer ↔ "POST" = "GET") ∧
    (EnterpriseCustomerUserViewSet.get_serializer_class "POST" =
        SerializerClass.EnterpriseCustomerUserWriteSerializer ↔ "POST" ≠ "GET") :=
  c4_serializer_by_method "POST"

/-- One entitlement available to a learner: its id, and whether the
data-sharing consent requirement for it is satisfied. -/
structure Entitlement where
  entitlement_id : Nat
  consentOk : Bool
deriving Repr, DecidableEq

/-- An enterprise customer user (learner link): the platform user id, the
linked customer, and the raw entitlements available before consent
filtering. -/
structure EnterpriseCustomerUser where
  user_id : Nat
  enterprise_customer : EnterpriseCustomer
  availableEntitlements : List Entitlement
deriving Repr, DecidableEq

/-- Modelled from the spec: the `entitlements` property of
`EnterpriseCustomerUser` lives in enterprise/models.py, which is not under
src/. The spec says only those entitlements are returned that satisfy the
enterprise customer data-sharing setting: when the customer enforces
data-sharing consent, entitlements whose consent requirement is unmet are
filtered out; otherwise all available entitlements are returned. -/
def EnterpriseCustomerUser.entitlements (ecu : EnterpriseCustomerUser) :
    List Entitlement :=
  if ecu.enterprise_customer.enforce_data_sharing_consent then
    ecu.availableEntitlements.filter (fun e => e.consentOk)
  else
    ecu.availableEntitlements

/-- The `entitlements` detail action of `EnterpriseCustomerUserViewSet`
(views.py lines 189 to 206): builds the instance
`{"entitlements": enterprise_customer_user.entitlements}` and returns it
serialized as a plain response. The payload object is modelled as an
association list from keys to entitlement lists. -/
def EnterpriseCustomerUserViewSet.entitlements (ecu : EnterpriseCustomerUser)
    (_request : Request) : List (String × List Entitlement) :=
  [("entitlements", ecu.entitlements)]

/-- Claim C5: the entitlements action returns an object with exactly the
one key "entitlements", holding the resolved learner entitlements, which
are the available entitlements filtered according to the customer
consent-enforcement setting. -/
theorem c5_entitlements_payload (ecu : EnterpriseCustomerUser) (req : Request) :
    (EnterpriseCustomerUserViewSet.entitlements ecu req).map Prod.fst =
      ["entitlements"] ∧
    EnterpriseCustomerUserViewSet.entitlements ecu req =
      [("entitlements", ecu.entitlements)] ∧
    ∀ e, e ∈ ecu.entitlements ↔
      (e ∈ ecu.availableEntitlements ∧
        (ecu.enterprise_customer.enforce_data_sharing_consent = true →
          e.consentOk = true)) := by
  refine ⟨rfl, rfl, ?_⟩
  intro e
  by_cases h : ecu.enterprise_customer.enforce_data_sharing_consent <;>
    simp [EnterpriseCustomerUser.entitlements, h, List.mem_filter]

/-- A sample learner link used by witnesses: linked to a customer that
enforces data-sharing consent, with one consented and one unconsented
entitlement. -/
def sampleEcu : EnterpriseCustomerUser where
  user_id := 11
  enterprise_customer := ecWithCatalog
  availableEntitlements := [⟨1, true⟩, ⟨2, false⟩]

/-- Witness for C5 at a concrete learner link. -/
theorem c5_entitlements_payload_witness :
    (EnterpriseCustomerUserViewSet.entitlements sampleEcu sampleReq).map Prod.fst =
      ["entitlements"] ∧
    EnterpriseCustomerUserViewSet.entitlements sampleEcu sampleReq =
      [("entitlements", sampleEcu.entitlements)] ∧
    ∀ e, e ∈ sampleEcu.entitlements ↔
      (e ∈ sampleEcu.availableEntitlements ∧
        (sampleEcu.enterprise_customer.enforce_data_sharing_consent = true →
          e.consentOk = true)) :=
  c5_entitlements_payload sampleEcu sampleReq

/-- The permission classes named in views.py. -/
inductive PermissionClass
  | IsAuthenticated
  | IsServiceUserOrReadOnly
  | IsStaffUserOrLinkedToEnterprise
deriving Repr, DecidableEq

/-- The authentication classes named in views.py. -/
inductive AuthenticationClass
  | JwtAuthentication
  | BearerAuthentication
  | SessionAuthentication
deriving Repr, DecidableEq

/-- The throttle classes named in views.py. -/
inductive ThrottleClass
  | ServiceUserThrottle
deriving Repr, DecidableEq

/-- The policy bundle a viewset class is configured with: its
`permission_classes`, `authentication_classes` and `throttle_classes`. -/
structure PolicyBundle where
  permission_classes : List PermissionClass
  authentication_classes : List AuthenticationClass
  throttle_classes : List ThrottleClass
deriving Repr, DecidableEq

/-- The attributes shared by `EnterpriseModelViewSet` (views.py lines 30
to 37). -/
def EnterpriseModelViewSet.policy : PolicyBundle where
  permission_classes := [PermissionClass.IsAuthenticated]
  authentication_classes := [AuthenticationClass.JwtAuthentication,
    AuthenticationClass.BearerAuthentication, AuthenticationClass.SessionAuthentication]
  throttle_classes := [ThrottleClass.ServiceUserThrottle]

/-- `EnterpriseReadOnlyModelViewSet` (views.py lines 40 to 44) inherits
the base policy unchanged. -/
def EnterpriseReadOnlyModelViewSet.policy : PolicyBundle :=
  EnterpriseModelViewSet.policy

/-- `EnterpriseReadWriteModelViewSet` (views.py lines 47 to 51) overrides
only `permission_classes`, adding `IsServiceUserOrReadOnly`. -/
def EnterpriseReadWriteModelViewSet.policy : PolicyBundle :=
  { EnterpriseModelViewSet.policy with
    permission_classes := [PermissionClass.IsAuthenticated,
      PermissionClass.IsServiceUserOrReadOnly] }

/-- Policy of `EnterpriseCustomerViewSet`, inherited from the read-only
base. -/
def EnterpriseCustomerViewSet.policy : PolicyBundle :=
  EnterpriseReadOnlyModelViewSet.policy

/-- Policy of `EnterpriseCourseEnrollmentViewSet`, inherited from the
read-write base. -/
def EnterpriseCourseEnrollmentViewSet.policy : PolicyBundle :=
  EnterpriseReadWriteModelViewSet.policy

/-- Policy of `SiteViewSet`, inherited from the read-only base. -/
def SiteViewSet.policy : PolicyBundle :=
  EnterpriseReadOnlyModelViewSet.policy

/-- Policy of `UserViewSet`, inherited from the read-only base. -/
def UserViewSet.policy : PolicyBundle :=
  EnterpriseReadOnlyModelViewSet.policy

/-- Policy of `EnterpriseCustomerUserViewSet`, inherited from the
read-write base. -/
def EnterpriseCustomerUserViewSet.policy : PolicyBundle :=
  EnterpriseReadWriteModelViewSet.policy

/-- Policy of `EnterpriseCustomerBrandingConfigurationViewSet`, inherited
from the read-only base. -/
def EnterpriseCustomerBrandingConfigurationViewSet.policy : PolicyBundle :=
  EnterpriseReadOnlyModelViewSet.policy

/-- Policy of `UserDataSharingConsentAuditViewSet`, inherited from the
read-only base. -/
def UserDataSharingConsentAuditViewSet.policy : PolicyBundle :=
  EnterpriseReadOnlyModelViewSet.policy

/-- Policy of `EnterpriseCustomerEntitlementViewSet`, inherited from the
read-only base. -/
def EnterpriseCustomerEntitlementViewSet.policy : PolicyBundle :=
  EnterpriseReadOnlyModelViewSet.policy

/-- Policy of `EnterpriseCatalogViewSet` (views.py lines 251 to 258),
declared directly on the class. -/
def EnterpriseCatalogViewSet.policy : PolicyBundle where
  permission_classes := [PermissionClass.IsAuthenticated]
  authentication_classes := [AuthenticationClass.JwtAuthentication,
    AuthenticationClass.BearerAuthentication, AuthenticationClass.SessionAuthentication]
  throttle_classes := [ThrottleClass.ServiceUserThrottle]

/-- All viewset classes defined in views.py, paired with their policy
bundles. -/
def moduleViewSetPolicies : List (String × PolicyBundle) :=
  [("EnterpriseCustomerViewSet", EnterpriseCustomerViewSet.policy),
   ("EnterpriseCourseEnrollmentViewSet", EnterpriseCourseEnrollmentViewSet.policy),
   ("SiteViewSet", SiteViewSet.policy),
   ("UserViewSet", UserViewSet.policy),
   ("EnterpriseCustomerUserViewSet", EnterpriseCustomerUserViewSet.policy),
   ("EnterpriseCustomerBrandingConfigurationViewSet",
     EnterpriseCustomerBrandingConfigurationViewSet.policy),
   ("UserDataSharingConsentAuditViewSet", UserDataSharingConsentAuditViewSet.policy),
   ("EnterpriseCustomerEntitlementViewSet", EnterpriseCustomerEntitlementViewSet.policy),
   ("EnterpriseCatalogViewSet", EnterpriseCatalogViewSet.policy)]

/-- Claim C7: every viewset in the module requires an authenticated
caller, accepts exactly JWT, Bearer and Session authentication, and
throttles with exactly the service-user-aware throttle. -/
theorem c7_shared_policy_bundle :
    ∀ p ∈ moduleViewSetPolicies,
      PermissionClass.IsAuthenticated ∈ p.2.permission_classes ∧
      p.2.authentication_classes = [AuthenticationClass.JwtAuthentication,
        AuthenticationClass.BearerAuthentication,
        AuthenticationClass.SessionAuthentication] ∧
      p.2.throttle_classes = [ThrottleClass.ServiceUserThrottle] := by
  decide

/-- Witness for C7 at the catalog viewset entry of the module list. -/
theorem c7_shared_policy_bundle_witness :
    PermissionClass.IsAuthenticated ∈ EnterpriseCatalogViewSet.policy.permission_classes ∧
    EnterpriseCatalogViewSet.policy.authentication_classes =
      [AuthenticationClass.JwtAuthentication, AuthenticationClass.BearerAuthentication,
        AuthenticationClass.SessionAuthentication] ∧
    EnterpriseCatalogViewSet.policy.throttle_classes =
      [ThrottleClass.ServiceUserThrottle] :=
  c7_shared_policy_bundle ("EnterpriseCatalogViewSet", EnterpriseCatalogViewSet.policy)
    (by decide)

/-- The REST framework safe (read-only) HTTP methods. -/
def SAFE_METHODS : List String := ["GET", "HEAD", "OPTIONS"]

/-- A calling user as the permission classes see it. -/
structure ApiUser where
  id : Nat
  is_authenticated : Bool
  is_service_user : Bool
  is_staff : Bool
  linked_enterprises : List Nat
deriving Repr, DecidableEq

/-- An object a permission class checks against: its owning user id and,
when it belongs to an enterprise, that enterprise. -/
structure ApiObject where
  owner : Nat
  enterprise : Option Nat
deriving Repr, DecidableEq

/-- Modelled from the spec: the semantics of the permission classes
imported from enterprise/api/permissions.py, which is not under src/.
`IsAuthenticated` is the framework check for an authenticated caller.
`IsServiceUserOrReadOnly` exempts safe (read-only) methods and gates
writes on the caller being a service user or the owner of the object.
`IsStaffUserOrLinkedToEnterprise` admits staff users and users linked to
the enterprise of the object. -/
def PermissionClass.has_permission :
    PermissionClass → String → ApiUser → ApiObject → Bool
  | PermissionClass.IsAuthenticated, _, u, _ => u.is_authenticated
  | PermissionClass.IsServiceUserOrReadOnly, m, u, o =>
    if m ∈ SAFE_METHODS then true
    else u.is_service_user || (u.id == o.owner)
  | PermissionClass.IsStaffUserOrLinkedToEnterprise, _, u, o =>
    u.is_staff || (match o.enterprise with
      | none => false
      | some e => e ∈ u.linked_enterprises)

/-- A request is allowed by a policy bundle when every one of its
permission classes allows it. -/
def PolicyBundle.allows (p : PolicyBundle) (method : String) (u : ApiUser)
    (o : ApiObject) : Bool :=
  p.permission_classes.all (fun pc => pc.has_permission method u o)

/-- Claim C8: under the read-write base policy, a non-safe (write) request
is allowed only if the caller is a service user or the owner of the
object, while a safe (read-only) request is allowed exactly when the
caller is authenticated; and both read-write viewsets in the module carry
that policy. -/
theorem c8_write_gating (m : String) (u : ApiUser) (o : ApiObject) :
    (m ∉ SAFE_METHODS →
      EnterpriseReadWriteModelViewSet.policy.allows m u o = true →
      u.is_service_user = true ∨ u.id = o.owner) ∧
    (m ∈ SAFE_METHODS →
      EnterpriseReadWriteModelViewSet.policy.allows m u o = u.is_authenticated) ∧
    EnterpriseCourseEnrollmentViewSet.policy = EnterpriseReadWriteModelViewSet.policy ∧
    EnterpriseCustomerUserViewSet.policy = EnterpriseReadWriteModelViewSet.policy := by
  refine ⟨?_, ?_, rfl, rfl⟩
  · intro hm hallow
    simp [PolicyBundle.allows, EnterpriseReadWriteModelViewSet.policy,
      EnterpriseModelViewSet.policy, PermissionClass.has_permission, hm] at hallow
    rcases hallow.2 with hs | ho
    · exact Or.inl hs
    · exact Or.inr (by exact_mod_cast ho)
  · intro hm
    simp [PolicyBundle.allows, EnterpriseReadWriteModelViewSet.policy,
      EnterpriseModelViewSet.policy, PermissionClass.has_permission, hm]

/-- Witness for C8 at the method POST and an authenticated non-service
caller owning the object: the allowed write forces the service-user-or-
owner disjunction. -/
theorem c8_write_gating_witness :
    (⟨5, true, false, false, []⟩ : ApiUser).is_service_user = true ∨
      (⟨5, true, false, false, []⟩ : ApiUser).id = (⟨5, none⟩ : ApiObject).owner :=
  (c8_write_gating "POST" ⟨5, true, false, false, []⟩ ⟨5, none⟩).1
    (by decide) (by decide)

/-- Modelled from the spec: the `active_customers` manager of
`EnterpriseCustomer` lives in enterprise/models.py, which is not under
src/. The spec data model gives customers an active flag and describes
this endpoint as reaching active customers, so the manager returns
exactly the customers whose active flag is set. -/
def EnterpriseCustomer.active_customers (db : List EnterpriseCustomer) :
    List EnterpriseCustomer :=
  db.filter (fun ec => ec.active)

/-- `EnterpriseCustomerViewSet.queryset` (views.py line 58):
`models.EnterpriseCustomer.active_customers.all()` over a database of
customer records. -/
def EnterpriseCustomerViewSet.queryset (db : List EnterpriseCustomer) :
    List EnterpriseCustomer :=
  EnterpriseCustomer.active_customers db

/-- `get_object` as list/retrieve and the courses action use it: resolve
the pk (uuid) within the viewset queryset. -/
def EnterpriseCustomerViewSet.get_object (db : List EnterpriseCustomer)
    (pk : Nat) : Option EnterpriseCustomer :=
  (EnterpriseCustomerViewSet.queryset db).find? (fun ec => ec.uuid == pk)

/-- Claim C9: the enterprise-customer queryset contains only active
customers, any customer resolved through `get_object` is active, and an
inactive customer in the database is unreachable through either. -/
theorem c9_only_active_customers (db : List EnterpriseCustomer) (pk : Nat) :
    (∀ ec ∈ EnterpriseCustomerViewSet.queryset db, ec.active = true) ∧
    (∀ ec, EnterpriseCustomerViewSet.get_object db pk = some ec →
      ec.active = true) ∧
    (∀ ec ∈ db, ec.active = false →
      ec ∉ EnterpriseCustomerViewSet.queryset db ∧
      EnterpriseCustomerViewSet.get_object db pk ≠ some ec) := by
  have hq : ∀ ec ∈ EnterpriseCustomerViewSet.queryset db, ec.active = true := by
    intro ec hec
    exact (List.mem_filter.mp hec).2
  refine ⟨hq, ?_, ?_⟩
  · intro ec hfind
    exact hq ec (List.mem_of_find?_eq_some hfind)
  · intro ec _ hinactive
    constructor
    · intro hmem
      have := hq ec hmem
      simp [this] at hinactive
    · intro hfind
      have := hq ec (List.mem_of_find?_eq_some hfind)
      simp [this] at hinactive

/-- A sample inactive enterprise customer. -/
def ecInactive : EnterpriseCustomer where
  uuid := 8
  name := "Globex"
  catalog := some 5
  active := false
  enable_data_sharing_consent := false
  enforce_data_sharing_consent := false

/-- Witness for C9: a concrete inactive customer is unreachable through
the queryset and through `get_object`. -/
theorem c9_only_active_customers_witness :
    ecInactive ∉ EnterpriseCustomerViewSet.queryset [ecWithCatalog, ecInactive] ∧
    EnterpriseCustomerViewSet.get_object [ecWithCatalog, ecInactive] 8 ≠
      some ecInactive :=
  (c9_only_active_customers [ecWithCatalog, ecInactive] 8).2.2 ecInactive
    (by decide) rfl

/-- The `FIELDS` tuple of `EnterpriseCustomerViewSet` (views.py lines 61
to 64). -/
def EnterpriseCustomerViewSet.FIELDS : List String :=
  ["uuid", "name", "catalog", "active", "site", "enable_data_sharing_consent",
   "enforce_data_sharing_consent"]

/-- `filter_fields = FIELDS` on `EnterpriseCustomerViewSet`. -/
def EnterpriseCustomerViewSet.filter_fields : List String :=
  EnterpriseCustomerViewSet.FIELDS

/-- `ordering_fields = FIELDS` on `EnterpriseCustomerViewSet`. -/
def EnterpriseCustomerViewSet.ordering_fields : List String :=
  EnterpriseCustomerViewSet.FIELDS

/-- The `FIELDS` tuple of `EnterpriseCourseEnrollmentViewSet` (views.py
lines 126 to 128). -/
def EnterpriseCourseEnrollmentViewSet.FIELDS : List String :=
  ["enterprise_customer_user", "consent_granted", "course_id"]

/-- `filter_fields = FIELDS` on `EnterpriseCourseEnrollmentViewSet`. -/
def EnterpriseCourseEnrollmentViewSet.filter_fields : List String :=
  EnterpriseCourseEnrollmentViewSet.FIELDS

/-- `ordering_fields = FIELDS` on `EnterpriseCourseEnrollmentViewSet`. -/
def EnterpriseCourseEnrollmentViewSet.ordering_fields : List String :=
  EnterpriseCourseEnrollmentViewSet.FIELDS

/-- The `FIELDS` tuple of `SiteViewSet` (views.py line 148). -/
def SiteViewSet.FIELDS : List String :=
  ["domain", "name"]

/-- `filter_fields = FIELDS` on `SiteViewSet`. -/
def SiteViewSet.filter_fields : List String :=
  SiteViewSet.FIELDS

/-- `ordering_fields = FIELDS` on `SiteViewSet`. -/
def SiteViewSet.ordering_fields : List String :=
  SiteViewSet.FIELDS

/-- The `FIELDS` tuple of `UserViewSet` (views.py lines 160 to 162). -/
def UserViewSet.FIELDS : List String :=
  ["username", "first_name", "last_name", "email", "is_staff", "is_active"]

/-- `filter_fields = FIELDS` on `UserViewSet`. -/
def UserViewSet.filter_fields : List String :=
  UserViewSet.FIELDS

/-- `ordering_fields = FIELDS` on `UserViewSet`. -/
def UserViewSet.ordering_fields : List String :=
  UserViewSet.FIELDS

/-- The `FIELDS` tuple of `EnterpriseCustomerUserViewSet` (views.py lines
174 to 176). -/
def EnterpriseCustomerUserViewSet.FIELDS : List String :=
  ["enterprise_customer", "user_id"]

/-- `filter_fields = FIELDS` on `EnterpriseCustomerUserViewSet`. -/
def EnterpriseCustomerUserViewSet.filter_fields : List String :=
  EnterpriseCustomerUserViewSet.FIELDS

/-- `ordering_fields = FIELDS` on `EnterpriseCustomerUserViewSet`. -/
def EnterpriseCustomerUserViewSet.ordering_fields : List String :=
  EnterpriseCustomerUserViewSet.FIELDS

/-- The `FIELDS` tuple of `EnterpriseCustomerBrandingConfigurationViewSet`
(views.py lines 216 to 218). -/
def EnterpriseCustomerBrandingConfigurationViewSet.FIELDS : List String :=
  ["enterprise_customer"]

/-- `filter_fields = FIELDS` on the branding viewset. -/
def EnterpriseCustomerBrandingConfigurationViewSet.filter_fields : List String :=
  EnterpriseCustomerBrandingConfigurationViewSet.FIELDS

/-- `ordering_fields = FIELDS` on the branding viewset. -/
def EnterpriseCustomerBrandingConfigurationViewSet.ordering_fields : List String :=
  EnterpriseCustomerBrandingConfigurationViewSet.FIELDS

/-- The `FIELDS` tuple of `UserDataSharingConsentAuditViewSet` (views.py
lines 230 to 232). -/
def UserDataSharingConsentAuditViewSet.FIELDS : List String :=
  ["user", "state"]

/-- `filter_fields = FIELDS` on the consent-audit viewset. -/
def UserDataSharingConsentAuditViewSet.filter_fields : List String :=
  UserDataSharingConsentAuditViewSet.FIELDS

/-- `ordering_fields = FIELDS` on the consent-audit viewset. -/
def UserDataSharingConsentAuditViewSet.ordering_fields : List String :=
  UserDataSharingConsentAuditViewSet.FIELDS

/-- The `FIELDS` tuple of `EnterpriseCustomerEntitlementViewSet` (views.py
lines 244 to 246). -/
def EnterpriseCustomerEntitlementViewSet.FIELDS : List String :=
  ["enterprise_customer", "entitlement_id"]

/-- `filter_fields = FIELDS` on the customer-entitlement viewset. -/
def EnterpriseCustomerEntitlementViewSet.filter_fields : List String :=
  EnterpriseCustomerEntitlementViewSet.FIELDS

/-- `ordering_fields = FIELDS` on the customer-entitlement viewset. -/
def EnterpriseCustomerEntitlementViewSet.ordering_fields : List String :=
  EnterpriseCustomerEntitlementViewSet.FIELDS

/-- Claim C10: in every model viewset of the module, the fields on which
filtering is allowed are exactly the fields on which ordering is allowed,
because both are assigned the same FIELDS tuple. -/
theorem c10_filter_eq_ordering_fields :
    EnterpriseCustomerViewSet.filter_fields =
      EnterpriseCustomerViewSet.ordering_fields ∧
    EnterpriseCourseEnrollmentViewSet.filter_fields =
      EnterpriseCourseEnrollmentViewSet.ordering_fields ∧
    SiteViewSet.filter_fields = SiteViewSet.ordering_fields ∧
    UserViewSet.filter_fields = UserViewSet.ordering_fields ∧
    EnterpriseCustomerUserViewSet.filter_fields =
      EnterpriseCustomerUserViewSet.ordering_fields ∧
    EnterpriseCustomerBrandingConfigurationViewSet.filter_fields =
      EnterpriseCustomerBrandingConfigurationViewSet.ordering_fields ∧
    UserDataSharingConsentAuditViewSet.filter_fields =
      UserDataSharingConsentAuditViewSet.ordering_fields ∧
    EnterpriseCustomerEntitlementViewSet.filter_fields =
      EnterpriseCustomerEntitlementViewSet.ordering_fields :=
  ⟨rfl, rfl, rfl, rfl, rfl, rfl, rfl, rfl⟩

/-- A concrete request to the catalog list endpoint, used by the C6
counterexample. -/
def catalogListReq : Request where
  method := "GET"
  get_full_path := "/enterprise/api/v1/catalogs/?page=2"
  GET := [("page", "2")]
  userId := 7

/-- Counterexample to claim C6 as stated: on a concrete catalog list
request whose external call returns a falsy payload, the view raises
`NotFound` but no emitted error-level log message contains the requested
full path (the log is the fixed string naming "/catalogs/"). -/
theorem c6_cex_list_log_lacks_path :
    (∃ msg, (EnterpriseCatalogViewSet.list emptyApi catalogListReq).outcome =
      Outcome.notFound msg) ∧
    ∀ msg ∈ (EnterpriseCatalogViewSet.list emptyApi catalogListReq).errorLogs,
      ¬ ContainsSub catalogListReq.get_full_path msg := by
  constructor
  · exact ⟨"The resource you are looking for does not exist.", rfl⟩
  · intro msg hmsg hcontains
    have hmsgeq : msg = "Unable to fetch API response from endpoint \"/catalogs/\"." := by
      simpa [EnterpriseCatalogViewSet.list, emptyApi] using hmsg
    subst hmsgeq
    have h1 : ('?' : Char) ∈ catalogListReq.get_full_path.data := by decide
    have h2 := containsSub_mem hcontains h1
    revert h2
    decide

/-- Claim C6 amended: every resource-not-found failure in this views
layer emits exactly one error-level log message before the error
propagates; the customer-courses failure messages contain the customer
name and the request full path, and the catalog-courses failure message
contains the request full path, but the catalog list failure logs a
fixed endpoint string (no request path, no entity name) and the catalog
retrieve failure logs the catalog id against a fixed path pattern. -/
theorem c6_not_found_logging_amended (api : CourseCatalogApiClient)
    (ec : EnterpriseCustomer) (req : Request) (pk : Nat) :
    (∀ msg, (EnterpriseCustomerViewSet.courses api ec req).outcome =
        Outcome.notFound msg →
      (EnterpriseCustomerViewSet.courses api ec req).errorLogs = [msg] ∧
      ContainsSub ec.name msg ∧ ContainsSub req.get_full_path msg) ∧
    (api.get_paginated_catalogs req.GET = none →
      (EnterpriseCatalogViewSet.list api req).errorLogs =
        ["Unable to fetch API response from endpoint \"/catalogs/\"."]) ∧
    (api.get_catalog pk = none →
      ∃ msg, (EnterpriseCatalogViewSet.retrieve api req pk).errorLogs = [msg] ∧
        ContainsSub (toString pk) msg) ∧
    (api.get_paginated_catalog_courses pk req.GET = none →
      ∃ msg, (EnterpriseCatalogViewSet.courses api req ec pk).errorLogs = [msg] ∧
        ContainsSub req.get_full_path msg) := by
  refine ⟨?_, ?_, ?_, ?_⟩
  · intro msg hmsg
    rcases hc : ec.catalog with _ | c
    · simp only [EnterpriseCustomerViewSet.courses, hc] at hmsg ⊢
      have hmeq := (Outcome.notFound.injEq _ _).mp hmsg.symm
      subst hmeq
      refine ⟨rfl, ?_, ?_⟩
      · exact containsSub_assoc_mid
          "No catalog is associated with Enterprise " ec.name
          " from endpoint \x27" req.get_full_path "\x27."
      · exact containsSub_middle
          ("No catalog is associated with Enterprise " ++ ec.name ++
            " from endpoint \x27") req.get_full_path "\x27."
    · by_cases hz : c = 0
      · subst hz
        simp only [EnterpriseCustomerViewSet.courses, hc, if_pos rfl] at hmsg ⊢
        have hmeq := (Outcome.notFound.injEq _ _).mp hmsg.symm
        subst hmeq
        refine ⟨rfl, ?_, ?_⟩
        · exact containsSub_assoc_mid
            "No catalog is associated with Enterprise " ec.name
            " from endpoint \x27" req.get_full_path "\x27."
        · exact containsSub_middle
            ("No catalog is associated with Enterprise " ++ ec.name ++
              " from endpoint \x27") req.get_full_path "\x27."
      · rcases hapi : api.get_paginated_catalog_courses c req.GET with _ | courses
        · simp only [EnterpriseCustomerViewSet.courses, hc, if_neg hz, hapi] at hmsg ⊢
          have hmeq := (Outcome.notFound.injEq _ _).mp hmsg.symm
          subst hmeq
          refine ⟨rfl, ?_, ?_⟩
          · exact containsSub_assoc_mid
              "Unable to fetch API response for catalog courses for Enterprise "
              ec.name " from endpoint \x27" req.get_full_path "\x27."
          · exact containsSub_middle
              ("Unable to fetch API response for catalog courses for Enterprise " ++
                ec.name ++ " from endpoint \x27") req.get_full_path "\x27."
        · simp [EnterpriseCustomerViewSet.courses, hc, if_neg hz, hapi] at hmsg
  · intro hapi
    simp [EnterpriseCatalogViewSet.list, hapi]
  · intro hapi
    refine ⟨"Unable to fetch API response for given catalog from endpoint \x27/catalog/" ++
      toString pk ++ "/\x27.", ?_, ?_⟩
    · simp [EnterpriseCatalogViewSet.retrieve, hapi]
    · exact containsSub_middle
        "Unable to fetch API response for given catalog from endpoint \x27/catalog/"
        (toString pk) "/\x27."
  · intro hapi
    refine ⟨"Unable to fetch API response for catalog courses from endpoint \x27" ++
      req.get_full_path ++ "\x27.", ?_, ?_⟩
    · simp [EnterpriseCatalogViewSet.courses, hapi]
    · exact containsSub_middle
        "Unable to fetch API response for catalog courses from endpoint \x27"
        req.get_full_path "\x27."

/-- Witness for the amended C6 at the all-falsy client: the catalog list
failure logs exactly the fixed endpoint string. -/
theorem c6_not_found_logging_amended_witness :
    (EnterpriseCatalogViewSet.list emptyApi sampleReq).errorLogs =
      ["Unable to fetch API response from endpoint \"/catalogs/\"."] :=
  (c6_not_found_logging_amended emptyApi ecNoCatalog sampleReq 9).2.1 rfl
